import Mathlib

/-!
# Verification of the `dog` Gateway/Shard routing library

Shallow embedding of `src/gateway.ts` (class `Gateway`) and `src/shard.ts`
(class `Shard`).  JavaScript `Map`s are modelled as insertion-ordered
association lists (`Map.set` updates in place or appends; iteration follows
insertion order), JS `Set`s as duplicate-free lists in insertion order, and
live counts as `Nat` (they are small non-negative integers in the code;
`Math.max(0, alive - 1)` coincides with truncated subtraction on `Nat`).
Cross-actor calls and socket sends are recorded as explicit effect lists.
-/

namespace Dog

/-- JS string-or fallback: `a || b` where an empty string is falsy. -/
def jsOr (a b : Option String) : Option String :=
  match a with
  | some s => if s = "" then b else some s
  | none => b

/-- `Map.set k v`: replace in place if the key exists, else append. -/
def mapSet {β : Type} (k : String) (v : β) : List (String × β) → List (String × β)
  | [] => [(k, v)]
  | (k', v') :: rest => if k = k' then (k, v) :: rest else (k', v') :: mapSet k v rest

/-- `Map.delete k`: remove the entry for `k` (at most one in a well-formed map). -/
def mapDelete {β : Type} (k : String) : List (String × β) → List (String × β)
  | [] => []
  | (k', v') :: rest => if k = k' then rest else (k', v') :: mapDelete k rest

/-- Insert a shard/count pair into a list already sorted ascending by count,
keeping earlier-inserted entries first among equal counts (JS `sort` is stable
and the comparator is `(a, b) => a[1] - b[1]`). -/
def insertByCount (x : String × Nat) : List (String × Nat) → List (String × Nat)
  | [] => [x]
  | y :: ys => if y.2 < x.2 then y :: insertByCount x ys else x :: y :: ys

/-- Stable ascending sort by live count, as in `Gateway.#sort`. -/
def sortByCount : List (String × Nat) → List (String × Nat)
  | [] => []
  | x :: xs => insertByCount x (sortByCount xs)

/-- State owned by one `Gateway` instance (`gateway.ts` fields):
`#mapping` (sticky ReqID → ShardID), `#kids` (ShardID → LiveCount),
`#sorted` (most-available shard ids) and `#current` (last-used hint). -/
structure GatewayState where
  uid : String
  limit : Nat
  mapping : List (String × String)
  kids : List (String × Nat)
  sorted : List String
  current : Option String
  deriving Repr, DecidableEq

/-- `Gateway.#sort`: copy `#kids`, sort ascending by count, keep only buckets
with `count < limit` (in order) as the new `#sorted`, and return the first
kept bucket, if any. -/
def gatewaySort (st : GatewayState) : GatewayState × Option (String × Nat) :=
  let tuples := sortByCount st.kids
  let kept := tuples.filter (fun t => t.2 < st.limit)
  ({ st with sorted := kept.map Prod.fst }, kept.head?)

/-- Outcome of one `Gateway.fetch` routing decision: the updated state, the
chosen shard id and the live count written for it. -/
structure RouteOut where
  state : GatewayState
  sid : String
  alive : Nat
  deriving Repr, DecidableEq

/-- Common tail of `Gateway.fetch` (lines 94-104): update `#current`,
`#mapping` and `#kids`, then forward to shard `sid`. -/
def routeFinish (st : GatewayState) (rid sid : String) (alive : Nat) : RouteOut :=
  { state :=
      { st with
        current := if alive < st.limit then some sid else none
        mapping := mapSet rid sid st.mapping
        kids := mapSet sid alive st.kids }
    sid := sid
    alive := alive }

/-- Fresh-shard branch of `Gateway.fetch`: `clusterize` returned `fresh`;
the synchronous prefix of `#welcome` unshifts it onto `#sorted` and records
count 1 (the neighbor introductions are fire-and-forget I/O), then the
routing tail runs with `alive = 1`. -/
def routeFresh (st : GatewayState) (rid fresh : String) : RouteOut :=
  let st1 := { st with sorted := fresh :: st.sorted, kids := mapSet fresh 1 st.kids }
  routeFinish st1 rid fresh 1

/-- Slow path of `Gateway.fetch` (lines 79-92): if any shard is listed,
re-sort and take the most available bucket; otherwise create a fresh shard. -/
def routeSlow (st : GatewayState) (rid fresh : String) : RouteOut :=
  if st.sorted.length > 0 then
    match gatewaySort st with
    | (st1, some pair) => routeFinish st1 rid pair.1 (pair.2 + 1)
    | (st1, none) => routeFresh st1 rid fresh
  else routeFresh st rid fresh

/-- `Gateway.fetch` on a non-CLOSE request, after `identify` yielded `rid`.
`fresh` is the unique id `clusterize` would mint if a new shard is needed.
Candidate shard: sticky mapping, else last-used, else head of `#sorted`;
the fast path accepts it when its incremented count stays within `limit`. -/
def route (st : GatewayState) (rid fresh : String) : RouteOut :=
  match jsOr (st.mapping.lookup rid) (jsOr st.current st.sorted.head?) with
  | some sid =>
    match st.kids.lookup sid with
    | some alive =>
      if alive + 1 ≤ st.limit then routeFinish st rid sid (alive + 1)
      else routeSlow st rid fresh
    | none => routeSlow st rid fresh
  | none => routeSlow st rid fresh

/-- An HTTP response as the code builds it: a status and a body. -/
structure Response where
  status : Nat
  body : String
  deriving Repr, DecidableEq

/-- `utils.abort(code, msg)`: an error response with the given status. -/
def abort (code : Nat) (msg : String) : Response :=
  { status := code, body := msg }

/-- An empty-success acknowledgment (`new Response` → 200 OK, empty body). -/
def emptyOk : Response := { status := 200, body := "" }

/-- The out-of-band control headers carried on actor-to-actor requests
(`internal/headers`): gateway id, client id, neighbor id, shard id,
target id, is-empty flag. `none` = header absent. -/
structure CtrlHeaders where
  gid : Option String
  cid : Option String
  nid : Option String
  sid : Option String
  tid : Option String
  isEmpty : Option String
  deriving Repr, DecidableEq

/-- The parts of a request the embedded code inspects. -/
structure Request where
  method : String
  path : String
  upgrade : Option String
  secKey : Option String
  secVersion : Option String
  headers : CtrlHeaders
  body : String
  deriving Repr, DecidableEq

/-- The identifiers `utils.validate` extracts from a request. -/
structure Idents where
  gid : String
  rid : String
  sid : String
  tid : Option String
  deriving Repr, DecidableEq

/-- Modelled from the spec: `utils.validate` lives in `internal/utils`, which
is not part of the two embedded source files.  Per §4.2/§6/§7 it checks that
the control identifiers parse (gateway id present; client id taken from the
client-id header or, on introduction calls, the neighbor-id header; shard id
present) and, when a replica uid is supplied, that this shard is the intended
recipient (`sid = uid`), throwing a validation error otherwise. -/
def validate (h : CtrlHeaders) (uid : Option String) : Except String Idents :=
  match h.gid with
  | none => .error "Missing: Gateway ID"
  | some gid =>
    match jsOr h.cid h.nid with
    | none => .error "Missing: Client ID"
    | some rid =>
      match h.sid with
      | none => .error "Missing: Shard ID"
      | some sid =>
        match uid with
        | some u => if sid = u then .ok ⟨gid, rid, sid, h.tid⟩ else .error "Mismatch: Shard ID"
        | none => .ok ⟨gid, rid, sid, h.tid⟩

/-- `Gateway.#close`, wrapped by the `try`/`catch` in `Gateway.fetch` that
turns a thrown error into `abort(400, message)` and leaves the state as it
was.  On success: decrement the shard's count (floored at 0), drop the sticky
mapping exactly when the is-empty header is `'1'`, re-sort, and point
`#current` at the most available bucket (or clear it). -/
def gatewayClose (st : GatewayState) (req : Request) : GatewayState × Response :=
  match validate req.headers none with
  | .error e => (st, abort 400 e)
  | .ok ids =>
    if ids.gid ≠ st.uid then (st, abort 400 "Mismatch: Gateway ID")
    else
      match st.kids.lookup ids.sid with
      | none => (st, abort 400 "Unknown: Shard ID")
      | some alive =>
        let st1 := { st with kids := mapSet ids.sid (alive - 1) st.kids }
        let st2 :=
          if req.headers.isEmpty = some "1"
          then { st1 with mapping := mapDelete ids.rid st1.mapping }
          else st1
        let sr := gatewaySort st2
        ({ sr.1 with current := sr.2.map Prod.fst }, Response.mk 200 "OK")

/-! ## Shard (`src/shard.ts`) -/

/-- Modelled from the spec: the reserved control route paths (`internal/routes`
is not part of the two embedded source files).  §6 reserves four routes —
CLOSE (shard→gateway decrement), NEIGHBOR (introduction), BROADCAST (relay),
WHISPER (relay); only their distinctness matters here. -/
def routeCLOSE : String := "/-/close"

/-- Modelled from the spec: reserved NEIGHBOR introduction route. -/
def routeNEIGHBOR : String := "/-/neighbor"

/-- Modelled from the spec: reserved BROADCAST relay route. -/
def routeBROADCAST : String := "/-/broadcast"

/-- Modelled from the spec: reserved WHISPER relay route. -/
def routeWHISPER : String := "/-/whisper"

/-- State owned by one `Shard` instance: its uid, the connection pool
(`#pool`: client id → owning gateway id; the socket itself is external, sends
to it are recorded as effects) and the neighbor set (`#neighbors`, a JS `Set`,
modelled as a duplicate-free list in insertion order). -/
structure ShardState where
  uid : String
  pool : List (String × String)
  neighbors : List String
  deriving Repr, DecidableEq

/-- `Set.add`: append the id unless it is already a member. -/
def addNeighbor (n : String) (ns : List String) : List String :=
  if n ∈ ns then ns else ns ++ [n]

/-- A decrement (close) notification sent to a gateway:
(gateway id, reporting shard id, client id). -/
structure Notice where
  gid : String
  sid : String
  rid : String
  deriving Repr, DecidableEq

/-- `Shard.#decrement`: delete the pool entry, then notify the gateway over
the CLOSE route. -/
def decrementEff (st : ShardState) (rid gid : String) : ShardState × List Notice :=
  ({ st with pool := mapDelete rid st.pool }, [⟨gid, st.uid, rid⟩])

/-- The socket sends `Shard.#emit sender msg self` performs: one per pool
entry, skipping the sender unless `self` is set (pool iteration order). -/
def emitSends (st : ShardState) (sender msg : String) (self : Bool) : List (String × String) :=
  (st.pool.filter (fun p => self || p.1 ≠ sender)).map (fun p => (p.1, msg))

/-- The neighbor shards `Shard.#dispatch` fetches: none when the neighbor
set is empty (early return), otherwise every member. -/
def dispatchTargets (st : ShardState) : List String :=
  if st.neighbors.length < 1 then [] else st.neighbors

/-- What one `Shard.#whisper gateway sender target msg` call does:
local socket sends and relayed WHISPER calls. -/
structure WhisperOut where
  sends : List (String × String)
  relays : List String
  deriving Repr, DecidableEq

/-- `Shard.#whisper`: no-op when sender = target; direct local delivery when
the target has a pool entry; otherwise dispatch a WHISPER relay to every
neighbor (messages here are already strings; an object would be
JSON-stringified first). -/
def whisper (st : ShardState) (sender target msg : String) : WhisperOut :=
  if sender = target then ⟨[], []⟩
  else
    match st.pool.lookup target with
    | some _ => ⟨[(target, msg)], []⟩
    | none => ⟨[], dispatchTargets st⟩

/-- Result of one `Shard.fetch` call: new state, response, local socket
sends, relayed neighbor calls (neighbor id, route) and decrement notices. -/
structure SFetchOut where
  state : ShardState
  response : Response
  sends : List (String × String)
  relays : List (String × String)
  notices : List Notice
  deriving Repr, DecidableEq

/-- `Shard.fetch`.  `recv` is the embedding application's `receive` handler,
abstracted as: given the shard state it runs in, it either returns a response
or throws, and may update the pool (e.g. by calling `connect`); the code
wraps it in `try`/`catch`/`finally` so that a throw becomes `abort(400,
stack)` and every non-101 outcome of the delegation branch runs
`#decrement(rid, gid)`.  The three control routes return early. -/
def shardFetch (recv : ShardState → Except String Response × ShardState)
    (st : ShardState) (req : Request) : SFetchOut :=
  match validate req.headers (some st.uid) with
  | .error e => ⟨st, abort 400 e, [], [], []⟩
  | .ok ids =>
    if req.path = routeNEIGHBOR then
      ⟨{ st with neighbors := addNeighbor ids.rid st.neighbors }, emptyOk, [], [], []⟩
    else if req.path = routeBROADCAST then
      ⟨st, emptyOk, emitSends st ids.rid req.body false, [], []⟩
    else if req.path = routeWHISPER then
      match ids.tid with
      | none => ⟨st, abort 400 "Missing: Target ID", [], [], []⟩
      | some tid =>
        if tid = "" then ⟨st, abort 400 "Missing: Target ID", [], [], []⟩
        else
          match st.pool.lookup tid with
          | some _ => ⟨st, emptyOk, [(tid, req.body)], [], []⟩
          | none => ⟨st, emptyOk, [], [], []⟩
    else
      match recv st with
      | (.ok res, st1) =>
        if res.status ≠ 101 then
          let d := decrementEff st1 ids.rid ids.gid
          ⟨d.1, res, [], [], d.2⟩
        else ⟨st1, res, [], [], []⟩
      | (.error e, st1) =>
        let d := decrementEff st1 ids.rid ids.gid
        ⟨d.1, abort 400 e, [], [], d.2⟩

/-- The `sec-websocket-key` check of `Shard.connect`:
`/^[+\/0-9A-Za-z]{22}==$/` applied to the trimmed header value. -/
def isValidKey (s : String) : Bool :=
  let t := s.trim
  t.length = 24 && t.endsWith "==" &&
    (t.take 22).toList.all (fun c => c.isAlphanum || c = '+' || c = '/')

/-- Outcome of `Shard.connect`: the state afterwards, the returned response
or the propagated exception, whether a socket pair was created/accepted, and
whether the `onopen` hook ran. -/
structure ConnectOut where
  state : ShardState
  result : Except String Response
  socketMade : Bool
  openRan : Bool
  deriving Repr

/-- `Shard.connect`.  The protocol preconditions are checked one by one,
each failure returning `utils.abort` with its status before any state
change; then the routing identifiers are validated against this shard's uid;
only then is the socket pair created and accepted, the `onopen` hook run
(`onopen` is the hook's outcome: `none` = no hook, `some r` = it ran with
result `r`; a throw propagates out of `connect` before the pool entry is
registered), and the pool entry written.  Success returns status 101. -/
def connect (onopen : Option (Except String Unit)) (st : ShardState) (req : Request) :
    ConnectOut :=
  if req.method ≠ "GET" then ⟨st, .ok (abort 405 ""), false, false⟩
  else if req.upgrade ≠ some "websocket" then ⟨st, .ok (abort 426 ""), false, false⟩
  else if ¬ isValidKey ((req.secKey).getD "") then ⟨st, .ok (abort 400 ""), false, false⟩
  else if req.secVersion ≠ some "13" then ⟨st, .ok (abort 400 ""), false, false⟩
  else
    match validate req.headers (some st.uid) with
    | .error e => ⟨st, .ok (abort 400 e), false, false⟩
    | .ok ids =>
      match onopen with
      | some (.error e) => ⟨st, .error e, true, true⟩
      | some (.ok _) =>
        ⟨{ st with pool := mapSet ids.rid ids.gid st.pool },
          .ok (Response.mk 101 ""), true, true⟩
      | none =>
        ⟨{ st with pool := mapSet ids.rid ids.gid st.pool },
          .ok (Response.mk 101 ""), true, false⟩

/-- A terminal event delivered to the server socket. -/
inductive SocketEvent where
  | close
  | error
  deriving Repr, DecidableEq

/-- One run of the `closer` listener of `Shard.connect` for one delivered
event: it runs `onerror` (on an error event) or `onclose` (otherwise), and
its `finally` block always performs `#decrement(rid, gid)` — so the hooks'
outcomes cannot suppress the notification, and the listener keeps no flag
recording that it already ran. -/
def closerRun (st : ShardState) (rid gid : String) (_e : SocketEvent) :
    ShardState × List Notice :=
  decrementEff st rid gid

/-- The `closer` listener is registered for both the `close` and the `error`
event of the server socket; this folds it over the sequence of terminal
events the runtime delivers, collecting the decrement notices. -/
def closerEvents (st : ShardState) (rid gid : String) :
    List SocketEvent → ShardState × List Notice
  | [] => (st, [])
  | e :: es =>
    let d := closerRun st rid gid e
    let r := closerEvents d.1 rid gid es
    (r.1, d.2 ++ r.2)

/-- The `message` listener `Shard.connect` attaches: it invokes the
`onmessage` hook directly — no `try`/`catch`, no response, no decrement —
so a throw propagates to the runtime.  Returns the hook outcome and the
decrement notices the listener itself sends (none). -/
def messageListener (onmessage : Option (String → Except String Unit)) (data : String) :
    Except String Unit × List Notice :=
  match onmessage with
  | some f => (f data, [])
  | none => (.ok (), [])

/-- One externally triggered operation on a `Shard` instance.  `fetchOp` is a
gateway/neighbor request handled by `Shard.fetch`; `connectOp` an upgrade
handled inside the application's `receive`; `socketEventsOp` the terminal
events of a pooled socket; the remaining operations (`#emit`, `#broadcast`,
`#whisper`) touch no shard field (they only send and dispatch). -/
inductive ShardOp where
  | fetchOp (req : Request)
  | connectOp (onopen : Option (Except String Unit)) (req : Request)
  | socketEventsOp (rid gid : String) (events : List SocketEvent)
  | emitOp (sender msg : String) (self : Bool)
  | broadcastOp (sender msg : String) (self : Bool)
  | whisperOp (sender target msg : String)

/-- State transition of one shard operation (`recv` abstracts the
application's `receive` handler used by `fetchOp`). -/
def shardStep (recv : ShardState → Except String Response × ShardState)
    (st : ShardState) : ShardOp → ShardState
  | .fetchOp req => (shardFetch recv st req).state
  | .connectOp oo req => (connect oo st req).state
  | .socketEventsOp rid gid evs => (closerEvents st rid gid evs).1
  | .emitOp _ _ _ => st
  | .broadcastOp _ _ _ => st
  | .whisperOp _ _ _ => st

/-- A whole sequence of shard operations. -/
def shardRun (recv : ShardState → Except String Response × ShardState)
    (st : ShardState) (ops : List ShardOp) : ShardState :=
  ops.foldl (shardStep recv) st


/-- How one routing decision may change the availability index relative to
capacity `lim`: every already-tracked shard keeps its count or has it
incremented by one to a value still within `lim`, and a previously untracked
shard can only appear with count 1. -/
def CountTransition (lim : Nat) (old new : List (String × Nat)) : Prop :=
  (∀ s c c', old.lookup s = some c → new.lookup s = some c' →
    c' = c ∨ (c' = c + 1 ∧ c' ≤ lim)) ∧
  (∀ s c', old.lookup s = none → new.lookup s = some c' → c' = 1)

/-- Following the spec's words (§4.2, §7): the status code with which the
upgrade handler rejects a request, `none` when all validations pass — 405 for
a wrong method, 426 for missing websocket upgrade intent, 400 for an
ill-formed handshake key or unsupported version (ProtocolError on the first
violation, in that order), and 400 when the routing identifiers are missing
or name another recipient (ValidationError). -/
def specUpgradeRejection (uid : String) (req : Request) : Option Nat :=
  if req.method ≠ "GET" then some 405
  else if req.upgrade ≠ some "websocket" then some 426
  else if ¬ isValidKey ((req.secKey).getD "") then some 400
  else if req.secVersion ≠ some "13" then some 400
  else
    match validate req.headers (some uid) with
    | .error _ => some 400
    | .ok _ => none

/-! ## Association-list lemmas -/

theorem lookup_mapSet_self {β : Type} (k : String) (v : β) (l : List (String × β)) :
    (mapSet k v l).lookup k = some v := by
  induction l with
  | nil => simp [mapSet, List.lookup]
  | cons p rest ih =>
    obtain ⟨k', v'⟩ := p
    by_cases h : k = k'
    · subst h
      simp [mapSet, List.lookup]
    · have hb : (k == k') = false := beq_eq_false_iff_ne.mpr h
      simp [mapSet, h, List.lookup, hb, ih]

theorem lookup_mapSet_ne {β : Type} {k s : String} (v : β) (l : List (String × β))
    (h : s ≠ k) : (mapSet k v l).lookup s = l.lookup s := by
  have hb : (s == k) = false := beq_eq_false_iff_ne.mpr h
  induction l with
  | nil => simp [mapSet, List.lookup, hb]
  | cons p rest ih =>
    obtain ⟨k', v'⟩ := p
    by_cases hk : k = k'
    · subst hk
      simp [mapSet, List.lookup, hb]
    · simp [mapSet, hk, List.lookup, ih]

theorem mem_insertByCount {a x : String × Nat} {l : List (String × Nat)} :
    a ∈ insertByCount x l ↔ a = x ∨ a ∈ l := by
  induction l with
  | nil => simp [insertByCount]
  | cons y ys ih =>
    by_cases h : y.2 < x.2
    · simp only [insertByCount, h, if_true, List.mem_cons, ih]
      tauto
    · simp only [insertByCount, h, if_false, List.mem_cons]

theorem mem_sortByCount {a : String × Nat} {l : List (String × Nat)} :
    a ∈ sortByCount l ↔ a ∈ l := by
  induction l with
  | nil => simp [sortByCount]
  | cons x xs ih =>
    simp [sortByCount, mem_insertByCount, ih]

theorem lookup_eq_of_mem {β : Type} {l : List (String × β)} {k : String} {v : β}
    (hnd : (l.map Prod.fst).Nodup) (hm : (k, v) ∈ l) : l.lookup k = some v := by
  induction l with
  | nil => simp at hm
  | cons p rest ih =>
    obtain ⟨k', v'⟩ := p
    simp only [List.map_cons, List.nodup_cons] at hnd
    rcases List.mem_cons.mp hm with heq | hmem
    · cases heq
      simp [List.lookup]
    · have hk : k ≠ k' := by
        intro h
        subst h
        exact hnd.1 (List.mem_map.mpr ⟨(k, v), hmem, rfl⟩)
      have hb : (k == k') = false := beq_eq_false_iff_ne.mpr hk
      simp [List.lookup, hb]
      exact ih hnd.2 hmem

/-! ## C1: assignments never push a live count above the limit -/

theorem countTransition_incr {lim : Nat} {kids : List (String × Nat)} {sid : String} {a : Nat}
    (ha : kids.lookup sid = some a) (hal : a + 1 ≤ lim) :
    CountTransition lim kids (mapSet sid (a + 1) kids) := by
  constructor
  · intro s c c' hold hnew
    by_cases hs : s = sid
    · subst hs
      rw [ha] at hold
      rw [lookup_mapSet_self] at hnew
      cases hold
      cases hnew
      exact Or.inr ⟨rfl, hal⟩
    · rw [lookup_mapSet_ne _ _ hs] at hnew
      rw [hold] at hnew
      cases hnew
      exact Or.inl rfl
  · intro s c' hold hnew
    by_cases hs : s = sid
    · subst hs
      rw [ha] at hold
      cases hold
    · rw [lookup_mapSet_ne _ _ hs] at hnew
      rw [hold] at hnew
      cases hnew

theorem countTransition_fresh {lim : Nat} {kids : List (String × Nat)} {fresh : String}
    (hf : kids.lookup fresh = none) :
    CountTransition lim kids (mapSet fresh 1 (mapSet fresh 1 kids)) := by
  constructor
  · intro s c c' hold hnew
    by_cases hs : s = fresh
    · subst hs
      rw [hf] at hold
      cases hold
    · rw [lookup_mapSet_ne _ _ hs, lookup_mapSet_ne _ _ hs] at hnew
      rw [hold] at hnew
      cases hnew
      exact Or.inl rfl
  · intro s c' hold hnew
    by_cases hs : s = fresh
    · subst hs
      rw [lookup_mapSet_self] at hnew
      cases hnew
      rfl
    · rw [lookup_mapSet_ne _ _ hs, lookup_mapSet_ne _ _ hs] at hnew
      rw [hold] at hnew
      cases hnew

theorem gatewaySort_bucket {st st1 : GatewayState} {p : String × Nat}
    (h : gatewaySort st = (st1, some p)) : p ∈ st.kids ∧ p.2 < st.limit := by
  have hb : ((sortByCount st.kids).filter (fun t => t.2 < st.limit)).head? = some p := by
    have h2 := congrArg Prod.snd h
    simpa [gatewaySort] using h2
  have hmem : p ∈ (sortByCount st.kids).filter (fun t => t.2 < st.limit) := by
    cases hk : (sortByCount st.kids).filter (fun t => t.2 < st.limit) with
    | nil => rw [hk] at hb; cases hb
    | cons q qs =>
      rw [hk] at hb
      simp only [List.head?_cons, Option.some.injEq] at hb
      subst hb
      exact List.mem_cons_self _ _
  have h3 := List.mem_filter.mp hmem
  refine ⟨mem_sortByCount.mp h3.1, by simpa using h3.2⟩

theorem routeSlow_countTransition (st : GatewayState) (rid fresh : String)
    (hnd : (st.kids.map Prod.fst).Nodup)
    (hf : st.kids.lookup fresh = none) :
    CountTransition st.limit st.kids (routeSlow st rid fresh).state.kids := by
  by_cases hlen : st.sorted.length > 0
  · rcases hsort : gatewaySort st with ⟨st1, bucket⟩
    have hk1 : st1.kids = st.kids := by
      have h := congrArg (fun q => (q.1).kids) hsort
      simpa [gatewaySort] using h.symm
    cases bucket with
    | some p =>
      have hb := gatewaySort_bucket hsort
      have hlook : st.kids.lookup p.1 = some p.2 := lookup_eq_of_mem hnd hb.1
      have hgoal : (routeSlow st rid fresh).state.kids = mapSet p.1 (p.2 + 1) st.kids := by
        unfold routeSlow
        rw [if_pos hlen, hsort]
        simp [routeFinish, hk1]
      rw [hgoal]
      exact countTransition_incr hlook (Nat.succ_le_of_lt hb.2)
    | none =>
      have hgoal :
          (routeSlow st rid fresh).state.kids = mapSet fresh 1 (mapSet fresh 1 st.kids) := by
        unfold routeSlow
        rw [if_pos hlen, hsort]
        simp [routeFresh, routeFinish, hk1]
      rw [hgoal]
      exact countTransition_fresh hf
  · have hgoal :
        (routeSlow st rid fresh).state.kids = mapSet fresh 1 (mapSet fresh 1 st.kids) := by
      unfold routeSlow
      rw [if_neg hlen]
      rfl
    rw [hgoal]
    exact countTransition_fresh hf

/-- C1: for any single `Gateway.fetch` routing decision under capacity
`limit`, no tracked shard's recorded live count is pushed above the limit by
the assignment: every tracked shard's count either stays as it was or is
incremented by exactly one to a value still `≤ limit` (fast path accepts only
when the incremented count is within the limit; the sorted path picks only a
shard strictly under it), and the only way a count appears for a previously
untracked shard is fresh shard creation at count 1.  `hnd` says the
availability index has no duplicate shard keys; `hf` says the freshly minted
id is genuinely new (which `newUniqueId` guarantees). -/
theorem route_no_count_overflow (st : GatewayState) (rid fresh : String)
    (hnd : (st.kids.map Prod.fst).Nodup)
    (hf : st.kids.lookup fresh = none) :
    CountTransition st.limit st.kids (route st rid fresh).state.kids := by
  cases hsid : jsOr (st.mapping.lookup rid) (jsOr st.current st.sorted.head?) with
  | none =>
    have hgoal : route st rid fresh = routeSlow st rid fresh := by
      unfold route
      simp only [hsid]
    rw [hgoal]
    exact routeSlow_countTransition st rid fresh hnd hf
  | some sid =>
    cases halive : st.kids.lookup sid with
    | none =>
      have hgoal : route st rid fresh = routeSlow st rid fresh := by
        unfold route
        simp only [hsid, halive]
      rw [hgoal]
      exact routeSlow_countTransition st rid fresh hnd hf
    | some alive =>
      by_cases hle : alive + 1 ≤ st.limit
      · have hgoal : route st rid fresh = routeFinish st rid sid (alive + 1) := by
          unfold route
          simp only [hsid, halive, if_pos hle]
        rw [hgoal]
        exact countTransition_incr halive hle
      · have hgoal : route st rid fresh = routeSlow st rid fresh := by
          unfold route
          simp only [hsid, halive, if_neg hle]
        rw [hgoal]
        exact routeSlow_countTransition st rid fresh hnd hf

/-- Witness for C1 at a concrete state: one tracked shard at count 1 with
limit 2; routing a new client fast-path increments it to 2 ≤ 2. -/
theorem route_no_count_overflow_witness :
    CountTransition 2 [("S1", 1)]
      (route ⟨"g", 2, [], [("S1", 1)], ["S1"], some "S1"⟩ "a" "S2").state.kids :=
  route_no_count_overflow ⟨"g", 2, [], [("S1", 1)], ["S1"], some "S1"⟩ "a" "S2"
    (by decide) (by decide)


/-! ## C5: the sorted availability list versus the capacity limit -/

/-- C5 counterexample: with limit 2, route client "a" (fresh shard S1,
count 1) and then client "b" (fast path, S1's count becomes 2 = limit).
`#sorted` is not recomputed on the fast path, so it still lists S1 even
though S1's recorded live count has reached the capacity limit. -/
theorem sorted_contains_at_limit_counterexample :
    (route (route ⟨"g", 2, [], [], [], none⟩ "a" "S1").state "b" "S2").state.sorted = ["S1"] ∧
    List.lookup "S1"
      (route (route ⟨"g", 2, [], [], [], none⟩ "a" "S1").state "b" "S2").state.kids = some 2 ∧
    (route (route ⟨"g", 2, [], [], [], none⟩ "a" "S1").state "b" "S2").state.limit = 2 := by
  decide

/-- C5 amended: immediately after `Gateway.#sort` recomputes it, the sorted
availability list contains only shards whose recorded live count is strictly
under the capacity limit (a fast-path acceptance or a `#welcome` insertion
may later leave a listed shard at or over the limit until the next
recomputation). -/
theorem gatewaySort_sorted_under_limit (st : GatewayState)
    (hnd : (st.kids.map Prod.fst).Nodup) :
    ∀ s ∈ (gatewaySort st).1.sorted, ∃ c, st.kids.lookup s = some c ∧ c < st.limit := by
  intro s hs
  have hmap : s ∈ ((sortByCount st.kids).filter (fun t => t.2 < st.limit)).map Prod.fst := hs
  rcases List.mem_map.mp hmap with ⟨p, hp, hps⟩
  have h2 := List.mem_filter.mp hp
  subst hps
  exact ⟨p.2, lookup_eq_of_mem hnd (mem_sortByCount.mp h2.1), by simpa using h2.2⟩

/-- Witness for the amended C5: sorting a two-shard index with limit 2 keeps
only S1 (count 1), and indeed S1 is tracked strictly under the limit. -/
theorem gatewaySort_sorted_under_limit_witness :
    ∃ c, List.lookup "S1" [("S1", 1), ("S2", 2)] = some c ∧ c < 2 :=
  gatewaySort_sorted_under_limit ⟨"g", 2, [], [("S1", 1), ("S2", 2)], [], none⟩
    (by decide) "S1" (by decide)

/-! ## C3 / C10: the close handler -/

theorem lookup_eq_none_of_not_mem_keys {β : Type} {l : List (String × β)} {k : String}
    (h : k ∉ l.map Prod.fst) : l.lookup k = none := by
  induction l with
  | nil => rfl
  | cons p rest ih =>
    obtain ⟨k', v'⟩ := p
    simp only [List.map_cons, List.mem_cons] at h
    push_neg at h
    have hb : (k == k') = false := beq_eq_false_iff_ne.mpr h.1
    simp only [List.lookup, hb]
    exact ih h.2

theorem lookup_mapDelete_self {β : Type} {l : List (String × β)} {k : String}
    (hnd : (l.map Prod.fst).Nodup) : (mapDelete k l).lookup k = none := by
  induction l with
  | nil => rfl
  | cons p rest ih =>
    obtain ⟨k', v'⟩ := p
    simp only [List.map_cons, List.nodup_cons] at hnd
    by_cases hk : k = k'
    · subst hk
      simp only [mapDelete, if_pos rfl]
      exact lookup_eq_none_of_not_mem_keys hnd.1
    · have hb : (k == k') = false := beq_eq_false_iff_ne.mpr hk
      simp only [mapDelete, if_neg hk, List.lookup, hb]
      exact ih hnd.2

theorem gatewayClose_mismatch (st : GatewayState) (req : Request) (ids : Idents)
    (hval : validate req.headers none = .ok ids) (h : ids.gid ≠ st.uid) :
    gatewayClose st req = (st, abort 400 "Mismatch: Gateway ID") := by
  unfold gatewayClose
  simp only [hval]
  rw [if_pos h]

theorem gatewayClose_unknown (st : GatewayState) (req : Request) (ids : Idents)
    (hval : validate req.headers none = .ok ids) (hgid : ids.gid = st.uid)
    (hlook : st.kids.lookup ids.sid = none) :
    gatewayClose st req = (st, abort 400 "Unknown: Shard ID") := by
  unfold gatewayClose
  simp only [hval, hlook]
  rw [if_neg (by simp [hgid])]

theorem gatewayClose_success (st : GatewayState) (req : Request) (ids : Idents) (a : Nat)
    (hval : validate req.headers none = .ok ids) (hgid : ids.gid = st.uid)
    (hlook : st.kids.lookup ids.sid = some a) :
    (gatewayClose st req).1.kids = mapSet ids.sid (a - 1) st.kids ∧
    (gatewayClose st req).1.mapping =
      (if req.headers.isEmpty = some "1" then mapDelete ids.rid st.mapping else st.mapping) ∧
    (gatewayClose st req).2 = Response.mk 200 "OK" := by
  unfold gatewayClose
  simp only [hval, hlook]
  rw [if_neg (by simp [hgid])]
  by_cases hie : req.headers.isEmpty = some "1"
  · simp [hie, gatewaySort]
  · simp [hie, gatewaySort]

/-- C3: `Gateway.#close` (as wrapped by `Gateway.fetch`) fails with the
gateway-mismatch error when the carried gateway id differs from this
router's uid, and with the unknown-shard error when the shard id has no
availability entry, returning the state entirely unchanged (mapping, kids,
sorted and current alike) in both failure cases; otherwise it writes
`count - 1` (`Nat` subtraction = floored at 0) for that shard and deletes
the sticky mapping for the client id exactly when the is-empty header is
set. -/
theorem gatewayClose_error_and_decrement (st : GatewayState) (req : Request) (ids : Idents)
    (hval : validate req.headers none = .ok ids) :
    (ids.gid ≠ st.uid → gatewayClose st req = (st, abort 400 "Mismatch: Gateway ID")) ∧
    (ids.gid = st.uid → st.kids.lookup ids.sid = none →
      gatewayClose st req = (st, abort 400 "Unknown: Shard ID")) ∧
    (∀ a, ids.gid = st.uid → st.kids.lookup ids.sid = some a →
      (gatewayClose st req).1.kids = mapSet ids.sid (a - 1) st.kids ∧
      (gatewayClose st req).1.mapping =
        (if req.headers.isEmpty = some "1" then mapDelete ids.rid st.mapping
         else st.mapping)) := by
  refine ⟨fun h => gatewayClose_mismatch st req ids hval h,
    fun hgid hlook => gatewayClose_unknown st req ids hval hgid hlook,
    fun a hgid hlook => ?_⟩
  have h := gatewayClose_success st req ids a hval hgid hlook
  exact ⟨h.1, h.2.1⟩

/-- Witness for C3: all three branches at concrete states — a mismatched
gateway id, an untracked shard id, and a successful decrement of shard "S"
from 1 to 0 with the is-empty flag set. -/
theorem gatewayClose_error_and_decrement_witness :
    (gatewayClose ⟨"g", 2, [], [("S", 1)], [], none⟩
        ⟨"POST", "/c", none, none, none, ⟨some "h", some "c", none, some "S", none, none⟩, ""⟩
      = (⟨"g", 2, [], [("S", 1)], [], none⟩, abort 400 "Mismatch: Gateway ID")) ∧
    (gatewayClose ⟨"g", 2, [], [("S", 1)], [], none⟩
        ⟨"POST", "/c", none, none, none, ⟨some "g", some "c", none, some "T", none, none⟩, ""⟩
      = (⟨"g", 2, [], [("S", 1)], [], none⟩, abort 400 "Unknown: Shard ID")) ∧
    ((gatewayClose ⟨"g", 2, [("c", "S")], [("S", 1)], ["S"], some "S"⟩
        ⟨"POST", "/c", none, none, none,
          ⟨some "g", some "c", none, some "S", none, some "1"⟩, ""⟩).1.kids
        = mapSet "S" 0 [("S", 1)] ∧
      (gatewayClose ⟨"g", 2, [("c", "S")], [("S", 1)], ["S"], some "S"⟩
        ⟨"POST", "/c", none, none, none,
          ⟨some "g", some "c", none, some "S", none, some "1"⟩, ""⟩).1.mapping
        = (if (some "1" : Option String) = some "1" then mapDelete "c" [("c", "S")]
           else [("c", "S")])) := by
  refine ⟨?_, ?_, ?_⟩
  · exact (gatewayClose_error_and_decrement ⟨"g", 2, [], [("S", 1)], [], none⟩
      ⟨"POST", "/c", none, none, none, ⟨some "h", some "c", none, some "S", none, none⟩, ""⟩
      ⟨"h", "c", "S", none⟩ rfl).1 (by decide)
  · exact (gatewayClose_error_and_decrement ⟨"g", 2, [], [("S", 1)], [], none⟩
      ⟨"POST", "/c", none, none, none, ⟨some "g", some "c", none, some "T", none, none⟩, ""⟩
      ⟨"g", "c", "T", none⟩ rfl).2.1 rfl rfl
  · exact (gatewayClose_error_and_decrement ⟨"g", 2, [("c", "S")], [("S", 1)], ["S"], some "S"⟩
      ⟨"POST", "/c", none, none, none,
        ⟨some "g", some "c", none, some "S", none, some "1"⟩, ""⟩
      ⟨"g", "c", "S", none⟩ rfl).2.2 1 rfl rfl

/-- C10: when a close notice carries the is-empty flag, `Gateway.#close`
deletes the sticky mapping for the client id without checking which shard
the mapping currently points at: even when the sticky mapping points at a
shard `s1` different from the (tracked) closing shard, the mapping entry is
removed. -/
theorem gatewayClose_unsticks_regardless_of_shard (st : GatewayState) (req : Request)
    (ids : Idents) (s1 : String) (a : Nat)
    (hval : validate req.headers none = .ok ids)
    (hnd : (st.mapping.map Prod.fst).Nodup)
    (hgid : ids.gid = st.uid)
    (hmap : st.mapping.lookup ids.rid = some s1)
    (hdiff : s1 ≠ ids.sid)
    (hlook : st.kids.lookup ids.sid = some a)
    (hie : req.headers.isEmpty = some "1") :
    ((gatewayClose st req).1.mapping).lookup ids.rid = none := by
  have h := (gatewayClose_success st req ids a hval hgid hlook).2.1
  rw [h, if_pos hie]
  exact lookup_mapDelete_self hnd

/-- Witness for C10: the sticky mapping points client "c" at shard "S1";
a close notice from tracked shard "S2" with the is-empty flag still deletes
the mapping for "c". -/
theorem gatewayClose_unsticks_regardless_of_shard_witness :
    ((gatewayClose ⟨"g", 2, [("c", "S1")], [("S1", 1), ("S2", 1)], [], none⟩
        ⟨"POST", "/c", none, none, none,
          ⟨some "g", some "c", none, some "S2", none, some "1"⟩, ""⟩).1.mapping).lookup "c"
      = none :=
  gatewayClose_unsticks_regardless_of_shard
    ⟨"g", 2, [("c", "S1")], [("S1", 1), ("S2", 1)], [], none⟩
    ⟨"POST", "/c", none, none, none,
      ⟨some "g", some "c", none, some "S2", none, some "1"⟩, ""⟩
    ⟨"g", "c", "S2", none⟩ "S1" 1 rfl (by decide) rfl (by decide) (by decide) rfl rfl



/-! ## C6: whisper delivery -/

theorem dispatchTargets_eq (st : ShardState) : dispatchTargets st = st.neighbors := by
  unfold dispatchTargets
  by_cases h : st.neighbors.length < 1
  · rw [if_pos h]
    have hnil : st.neighbors = [] := List.length_eq_zero.mp (Nat.lt_one_iff.mp h)
    rw [hnil]
  · rw [if_neg h]

/-- C6: `Shard.#whisper` is a no-op (no local send, no relay) when the
sender and target ids coincide; otherwise, a locally pooled target receives
the message directly on its own socket and no relay is issued; otherwise a
WHISPER relay is dispatched to exactly the members of the neighbor set — in
particular, with an empty neighbor set no relay call is attempted at all. -/
theorem whisper_delivery (st : ShardState) (sender target msg : String) :
    (sender = target → whisper st sender target msg = ⟨[], []⟩) ∧
    (sender ≠ target → ∀ g, st.pool.lookup target = some g →
      whisper st sender target msg = ⟨[(target, msg)], []⟩) ∧
    (sender ≠ target → st.pool.lookup target = none →
      whisper st sender target msg = ⟨[], st.neighbors⟩) ∧
    (sender ≠ target → st.pool.lookup target = none → st.neighbors = [] →
      whisper st sender target msg = ⟨[], []⟩) := by
  refine ⟨?_, ?_, ?_, ?_⟩
  · intro h
    unfold whisper
    rw [if_pos h]
  · intro h g hg
    unfold whisper
    rw [if_neg h]
    simp only [hg]
  · intro h hn
    unfold whisper
    rw [if_neg h]
    simp only [hn, dispatchTargets_eq]
  · intro h hn hne
    unfold whisper
    rw [if_neg h]
    simp only [hn, dispatchTargets_eq, hne]

/-- Witness for C6: the three delivery modes at concrete states — a
self-whisper is dropped, a pooled target "y" gets the one direct send, and a
non-local target with no neighbors triggers no relay. -/
theorem whisper_delivery_witness :
    whisper ⟨"A", [], ["B"]⟩ "x" "x" "m" = ⟨[], []⟩ ∧
    whisper ⟨"A", [("y", "g")], ["B"]⟩ "x" "y" "m" = ⟨[("y", "m")], []⟩ ∧
    whisper ⟨"A", [], []⟩ "x" "y" "m" = ⟨[], []⟩ :=
  ⟨(whisper_delivery ⟨"A", [], ["B"]⟩ "x" "x" "m").1 rfl,
   (whisper_delivery ⟨"A", [("y", "g")], ["B"]⟩ "x" "y" "m").2.1 (by decide) "g" rfl,
   (whisper_delivery ⟨"A", [], []⟩ "x" "y" "m").2.2.2 (by decide) rfl rfl⟩

/-! ## C4: decrement notifications per socket termination -/

/-- C4 counterexample: `closer` is registered for both the `close` and the
`error` event and keeps no already-ran flag, so a socket whose runtime
delivers an `error` event followed by the `close` event of the same
connection sends the gateway two decrement notifications for the single
registered connection — not exactly one. -/
theorem closer_double_notice_counterexample :
    (closerEvents ⟨"A", [("r", "g")], []⟩ "r" "g"
        [SocketEvent.error, SocketEvent.close]).2 =
      [⟨"g", "A", "r"⟩, ⟨"g", "A", "r"⟩] ∧
    (closerEvents ⟨"A", [("r", "g")], []⟩ "r" "g"
        [SocketEvent.error, SocketEvent.close]).2.length ≠ 1 := by
  decide

/-- C4 amended: the `closer` listener path sends exactly one decrement
notification per delivered terminal (`close` or `error`) event — never zero
for a delivered event, but also without any cross-event deduplication, so
exactly-once per pool-entry removal holds only when the runtime delivers
exactly one terminal event per socket. -/
theorem closerEvents_notice_per_event (st : ShardState) (rid gid : String)
    (events : List SocketEvent) :
    (closerEvents st rid gid events).2.length = events.length := by
  induction events generalizing st with
  | nil => rfl
  | cons e es ih =>
    simp [closerEvents, closerRun, decrementEff, ih]

/-! ## C2: which responses are preceded by a decrement -/

/-- C2 counterexample: a NeighborIntroduction control request is answered
with a plain 200 acknowledgment — not an upgrade — yet `Shard.fetch` returns
from that branch without performing decrement-and-deregister (the
`finally` decrement only wraps the application-delegation branch). -/
theorem shard_fetch_neighbor_no_decrement_counterexample :
    (shardFetch (fun s => (Except.ok emptyOk, s)) ⟨"A", [], []⟩
        ⟨"GET", routeNEIGHBOR, none, none, none,
          ⟨some "g", none, some "B", some "A", none, none⟩, ""⟩).response.status ≠ 101 ∧
    (shardFetch (fun s => (Except.ok emptyOk, s)) ⟨"A", [], []⟩
        ⟨"GET", routeNEIGHBOR, none, none, none,
          ⟨some "g", none, some "B", some "A", none, none⟩, ""⟩).notices = [] := by
  decide

/-- C2 amended: only the application-delegation branch of `Shard.fetch`
performs decrement-and-deregister, and there it does so exactly when the
response is not a 101 protocol switch; the internal control routes
(NeighborIntroduction, RelayBroadcast, RelayWhisper) acknowledge and return
with no decrement at all.  `huid` records that the application handler
cannot reassign the shard's readonly uid. -/
theorem shard_fetch_decrement_policy
    (recv : ShardState → Except String Response × ShardState)
    (st : ShardState) (req : Request) (ids : Idents)
    (hval : validate req.headers (some st.uid) = .ok ids)
    (huid : ((recv st).2).uid = st.uid) :
    ((req.path = routeNEIGHBOR ∨ req.path = routeBROADCAST ∨ req.path = routeWHISPER) →
      (shardFetch recv st req).notices = []) ∧
    (req.path ≠ routeNEIGHBOR → req.path ≠ routeBROADCAST → req.path ≠ routeWHISPER →
      ((shardFetch recv st req).response.status ≠ 101 →
        (shardFetch recv st req).notices = [⟨ids.gid, st.uid, ids.rid⟩] ∧
        (shardFetch recv st req).state.pool = mapDelete ids.rid ((recv st).2).pool) ∧
      ((shardFetch recv st req).response.status = 101 →
        (shardFetch recv st req).notices = [])) := by
  constructor
  · intro hctl
    unfold shardFetch
    simp only [hval]
    rcases hctl with h | h | h
    · rw [if_pos h]
    · rw [h]
      rw [if_neg (by decide), if_pos rfl]
    · rw [h]
      rw [if_neg (by decide), if_neg (by decide), if_pos rfl]
      split
      · rfl
      · split
        · rfl
        · split
          · rfl
          · rfl
  · intro h1 h2 h3
    unfold shardFetch
    simp only [hval]
    rw [if_neg h1, if_neg h2, if_neg h3]
    rcases hr : recv st with ⟨res, st1⟩
    have huid1 : st1.uid = st.uid := by
      rw [hr] at huid
      exact huid
    have hpool1 : st1.pool = ((recv st).2).pool := by
      rw [hr]
    cases res with
    | ok r =>
      dsimp only
      by_cases hs : r.status ≠ 101
      · rw [if_pos hs]
        constructor
        · intro _
          constructor
          · simp [decrementEff, huid1]
          · simp [decrementEff, hpool1]
        · intro habs
          exact absurd habs hs
      · rw [if_neg hs]
        push_neg at hs
        constructor
        · intro habs
          exact absurd hs habs
        · intro _
          rfl
    | error e =>
      dsimp only
      constructor
      · intro _
        constructor
        · simp [decrementEff, huid1]
        · simp [decrementEff, hpool1]
      · intro habs
        simp [abort] at habs

/-- Witness for the amended C2: a control request produces no notice, and a
plain 200 application response produces exactly one decrement notice. -/
theorem shard_fetch_decrement_policy_witness :
    (shardFetch (fun s => (Except.ok emptyOk, s)) ⟨"A", [("c", "g")], []⟩
        ⟨"GET", routeNEIGHBOR, none, none, none,
          ⟨some "g", none, some "B", some "A", none, none⟩, ""⟩).notices = [] ∧
    (shardFetch (fun s => (Except.ok emptyOk, s)) ⟨"A", [("c", "g")], []⟩
        ⟨"GET", "/app", none, none, none,
          ⟨some "g", some "c", none, some "A", none, none⟩, ""⟩).notices =
      [⟨"g", "A", "c"⟩] := by
  constructor
  · exact (shard_fetch_decrement_policy (fun s => (Except.ok emptyOk, s))
      ⟨"A", [("c", "g")], []⟩
      ⟨"GET", routeNEIGHBOR, none, none, none,
        ⟨some "g", none, some "B", some "A", none, none⟩, ""⟩
      ⟨"g", "B", "A", none⟩ rfl rfl).1 (Or.inl rfl)
  · exact ((shard_fetch_decrement_policy (fun s => (Except.ok emptyOk, s))
      ⟨"A", [("c", "g")], []⟩
      ⟨"GET", "/app", none, none, none,
        ⟨some "g", some "c", none, some "A", none, none⟩, ""⟩
      ⟨"g", "c", "A", none⟩ rfl rfl).2 (by decide) (by decide) (by decide)).1
      (by decide) |>.1


/-! ## C7: neighbor-set monotonicity -/

theorem mem_addNeighbor {a : String} (n : String) {ns : List String} (h : a ∈ ns) :
    a ∈ addNeighbor n ns := by
  unfold addNeighbor
  split
  · exact h
  · exact List.mem_append_left _ h

theorem shardFetch_neighbors_mono (recv : ShardState → Except String Response × ShardState)
    (hrecv : ∀ s, ((recv s).2).neighbors = s.neighbors)
    (st : ShardState) (req : Request) :
    ∀ a ∈ st.neighbors, a ∈ (shardFetch recv st req).state.neighbors := by
  intro a ha
  unfold shardFetch
  cases hval : validate req.headers (some st.uid) with
  | error e => exact ha
  | ok ids =>
    dsimp only
    by_cases hp1 : req.path = routeNEIGHBOR
    · rw [if_pos hp1]
      exact mem_addNeighbor ids.rid ha
    · rw [if_neg hp1]
      by_cases hp2 : req.path = routeBROADCAST
      · rw [if_pos hp2]
        exact ha
      · rw [if_neg hp2]
        by_cases hp3 : req.path = routeWHISPER
        · rw [if_pos hp3]
          split
          · exact ha
          · split
            · exact ha
            · split
              · exact ha
              · exact ha
        · rw [if_neg hp3]
          rcases hr : recv st with ⟨res, st1⟩
          have hn1 : st1.neighbors = st.neighbors := by
            have h := hrecv st
            rw [hr] at h
            exact h
          cases res with
          | ok r =>
            dsimp only
            by_cases hs : r.status ≠ 101
            · rw [if_pos hs]
              show a ∈ st1.neighbors
              rw [hn1]
              exact ha
            · rw [if_neg hs]
              show a ∈ st1.neighbors
              rw [hn1]
              exact ha
          | error e =>
            show a ∈ st1.neighbors
            rw [hn1]
            exact ha

theorem connect_neighbors (oo : Option (Except String Unit)) (st : ShardState)
    (req : Request) : (connect oo st req).state.neighbors = st.neighbors := by
  unfold connect
  split
  · rfl
  · split
    · rfl
    · split
      · rfl
      · split
        · rfl
        · split
          · rfl
          · split
            · rfl
            · rfl
            · rfl

theorem closerEvents_neighbors (st : ShardState) (rid gid : String)
    (evs : List SocketEvent) : (closerEvents st rid gid evs).1.neighbors = st.neighbors := by
  induction evs generalizing st with
  | nil => rfl
  | cons e es ih =>
    simp [closerEvents, closerRun, decrementEff, ih]

theorem shardStep_neighbors_mono (recv : ShardState → Except String Response × ShardState)
    (hrecv : ∀ s, ((recv s).2).neighbors = s.neighbors)
    (st : ShardState) (op : ShardOp) :
    ∀ a ∈ st.neighbors, a ∈ (shardStep recv st op).neighbors := by
  intro a ha
  cases op with
  | fetchOp req => exact shardFetch_neighbors_mono recv hrecv st req a ha
  | connectOp oo req =>
    show a ∈ (connect oo st req).state.neighbors
    rw [connect_neighbors]
    exact ha
  | socketEventsOp rid gid evs =>
    show a ∈ (closerEvents st rid gid evs).1.neighbors
    rw [closerEvents_neighbors]
    exact ha
  | emitOp sender msg self => exact ha
  | broadcastOp sender msg self => exact ha
  | whisperOp sender target msg => exact ha

/-- C7: the neighbor set only grows — across any sequence of shard
operations (gateway/neighbor requests, upgrades, socket terminations and the
messaging primitives), every id present in the neighbor set remains present;
and handling a NeighborIntroduction whose neighbor id is already a member
leaves the set (hence its size) entirely unchanged (`Set.add` idempotence).
`hrecv` records that the application's receive handler has no access to the
private neighbor set. -/
theorem shard_neighbors_monotone (recv : ShardState → Except String Response × ShardState)
    (hrecv : ∀ s, ((recv s).2).neighbors = s.neighbors)
    (st : ShardState) (ops : List ShardOp) :
    (∀ n ∈ st.neighbors, n ∈ (shardRun recv st ops).neighbors) ∧
    (∀ req ids, validate req.headers (some st.uid) = .ok ids → req.path = routeNEIGHBOR →
      ids.rid ∈ st.neighbors → (shardFetch recv st req).state.neighbors = st.neighbors) := by
  constructor
  · induction ops generalizing st with
    | nil => exact fun n h => h
    | cons op rest ih =>
      intro n hn
      exact ih (shardStep recv st op) n (shardStep_neighbors_mono recv hrecv st op n hn)
  · intro req ids hval hpath hmem
    unfold shardFetch
    simp only [hval]
    rw [if_pos hpath]
    show addNeighbor ids.rid st.neighbors = st.neighbors
    unfold addNeighbor
    rw [if_pos hmem]

/-- Witness for C7: with neighbor "B" present, a fetch introducing "C" keeps
"B" in the set, and re-introducing "B" leaves the set exactly `["B"]`. -/
theorem shard_neighbors_monotone_witness :
    "B" ∈ (shardRun (fun s => (Except.ok emptyOk, s)) ⟨"A", [], ["B"]⟩
      [ShardOp.fetchOp ⟨"GET", routeNEIGHBOR, none, none, none,
        ⟨some "g", none, some "C", some "A", none, none⟩, ""⟩]).neighbors ∧
    (shardFetch (fun s => (Except.ok emptyOk, s)) ⟨"A", [], ["B"]⟩
      ⟨"GET", routeNEIGHBOR, none, none, none,
        ⟨some "g", none, some "B", some "A", none, none⟩, ""⟩).state.neighbors = ["B"] :=
  ⟨(shard_neighbors_monotone (fun s => (Except.ok emptyOk, s)) (fun _ => rfl)
      ⟨"A", [], ["B"]⟩
      [ShardOp.fetchOp ⟨"GET", routeNEIGHBOR, none, none, none,
        ⟨some "g", none, some "C", some "A", none, none⟩, ""⟩]).1 "B" (by decide),
   (shard_neighbors_monotone (fun s => (Except.ok emptyOk, s)) (fun _ => rfl)
      ⟨"A", [], ["B"]⟩ []).2
      ⟨"GET", routeNEIGHBOR, none, none, none,
        ⟨some "g", none, some "B", some "A", none, none⟩, ""⟩
      ⟨"g", "B", "A", none⟩ rfl rfl (by decide)⟩

/-! ## C8: application handler errors -/

/-- C8 counterexample: the `message` listener calls the `onmessage` hook
with no `try`/`catch`; a hook that throws leaves the listener with the raw
propagated exception — no 4xx response is produced anywhere and no decrement
notification is sent. -/
theorem onmessage_throw_uncaught_counterexample :
    (messageListener (some (fun _ => Except.error "boom")) "data").1 =
      Except.error "boom" ∧
    (messageListener (some (fun _ => Except.error "boom")) "data").2 = [] :=
  ⟨rfl, rfl⟩

/-- C8 amended: a throw from the application's `receive` handler — including
one propagated out of `connect` by a throwing `onopen` hook, which `connect`
re-raises before registering the pool entry — is caught at the `Shard.fetch`
boundary, converted to a 400 response carrying the diagnostic text, and
decrement-and-deregister still runs for the request's client id; an
`onmessage` throw, by contrast, escapes the message listener uncaught. -/
theorem shard_app_error_caught (recv : ShardState → Except String Response × ShardState)
    (st : ShardState) (req : Request) (ids : Idents) (msg : String)
    (hval : validate req.headers (some st.uid) = .ok ids)
    (huid : ((recv st).2).uid = st.uid)
    (h1 : req.path ≠ routeNEIGHBOR) (h2 : req.path ≠ routeBROADCAST)
    (h3 : req.path ≠ routeWHISPER)
    (hthrow : (recv st).1 = .error msg) :
    (shardFetch recv st req).response = abort 400 msg ∧
    (shardFetch recv st req).notices = [⟨ids.gid, st.uid, ids.rid⟩] ∧
    (shardFetch recv st req).state.pool = mapDelete ids.rid ((recv st).2).pool ∧
    (∀ (st2 : ShardState) (creq : Request) (ids2 : Idents) (e : String),
      creq.method = "GET" → creq.upgrade = some "websocket" →
      isValidKey ((creq.secKey).getD "") = true → creq.secVersion = some "13" →
      validate creq.headers (some st2.uid) = .ok ids2 →
      (connect (some (.error e)) st2 creq).result = .error e ∧
      (connect (some (.error e)) st2 creq).state = st2) := by
  refine ⟨?_, ?_, ?_, ?_⟩
  · unfold shardFetch
    simp only [hval]
    rw [if_neg h1, if_neg h2, if_neg h3]
    rcases hr : recv st with ⟨res, st1⟩
    rw [hr] at hthrow
    dsimp only at hthrow
    subst hthrow
    rfl
  · unfold shardFetch
    simp only [hval]
    rw [if_neg h1, if_neg h2, if_neg h3]
    rcases hr : recv st with ⟨res, st1⟩
    have huid1 : st1.uid = st.uid := by
      rw [hr] at huid
      exact huid
    rw [hr] at hthrow
    dsimp only at hthrow
    subst hthrow
    show [(⟨ids.gid, st1.uid, ids.rid⟩ : Notice)] = [⟨ids.gid, st.uid, ids.rid⟩]
    rw [huid1]
  · unfold shardFetch
    simp only [hval]
    rw [if_neg h1, if_neg h2, if_neg h3]
    rcases hr : recv st with ⟨res, st1⟩
    rw [hr] at hthrow
    dsimp only at hthrow
    subst hthrow
    rfl
  · intro st2 creq ids2 e hm hu hk hv13 hval2
    unfold connect
    rw [if_neg (by simp [hm])]
    rw [if_neg (by simp [hu])]
    rw [if_neg (by simp [hk])]
    rw [if_neg (by simp [hv13])]
    simp [hval2]

/-- Witness for the amended C8: a `receive` that throws "boom" on the
application path of a shard with one pooled client yields a 400 response
with the diagnostic text and exactly one decrement notice. -/
theorem shard_app_error_caught_witness :
    (shardFetch (fun s => (Except.error "boom", s)) ⟨"A", [("c", "g")], []⟩
        ⟨"GET", "/app", none, none, none,
          ⟨some "g", some "c", none, some "A", none, none⟩, ""⟩).response =
      abort 400 "boom" ∧
    (shardFetch (fun s => (Except.error "boom", s)) ⟨"A", [("c", "g")], []⟩
        ⟨"GET", "/app", none, none, none,
          ⟨some "g", some "c", none, some "A", none, none⟩, ""⟩).notices =
      [⟨"g", "A", "c"⟩] := by
  have h := shard_app_error_caught (fun s => (Except.error "boom", s))
    ⟨"A", [("c", "g")], []⟩
    ⟨"GET", "/app", none, none, none,
      ⟨some "g", some "c", none, some "A", none, none⟩, ""⟩
    ⟨"g", "c", "A", none⟩ "boom" rfl rfl (by decide) (by decide) (by decide) rfl
  exact ⟨h.1, h.2.1⟩

/-! ## C9: upgrade validation precedes all state change -/

/-- C9: whenever the spec-side cascade `specUpgradeRejection` rejects an
upgrade request (405 wrong method, 426 missing upgrade intent, 400 bad key,
400 bad version — ProtocolError on the first violation — or 400 for
missing/mismatched routing identifiers — ValidationError), `Shard.connect`
returns exactly that 4xx status as its response, with the shard state
untouched, no socket pair created or accepted, and no application hook run. -/
theorem shard_connect_rejects_before_state (oo : Option (Except String Unit))
    (st : ShardState) (req : Request) (code : Nat)
    (h : specUpgradeRejection st.uid req = some code) :
    ∃ r, (connect oo st req).result = .ok r ∧ r.status = code ∧
      400 ≤ code ∧ code ≤ 426 ∧
      (connect oo st req).state = st ∧
      (connect oo st req).socketMade = false ∧
      (connect oo st req).openRan = false := by
  unfold specUpgradeRejection at h
  unfold connect
  by_cases hm : req.method ≠ "GET"
  · rw [if_pos hm] at h ⊢
    injection h with h
    subst h
    exact ⟨abort 405 "", rfl, rfl, by norm_num, by norm_num, rfl, rfl, rfl⟩
  · rw [if_neg hm] at h ⊢
    by_cases hu : req.upgrade ≠ some "websocket"
    · rw [if_pos hu] at h ⊢
      injection h with h
      subst h
      exact ⟨abort 426 "", rfl, rfl, by norm_num, by norm_num, rfl, rfl, rfl⟩
    · rw [if_neg hu] at h ⊢
      by_cases hk : ¬ isValidKey ((req.secKey).getD "")
      · rw [if_pos hk] at h ⊢
        injection h with h
        subst h
        exact ⟨abort 400 "", rfl, rfl, by norm_num, by norm_num, rfl, rfl, rfl⟩
      · rw [if_neg hk] at h ⊢
        by_cases hv : req.secVersion ≠ some "13"
        · rw [if_pos hv] at h ⊢
          injection h with h
          subst h
          exact ⟨abort 400 "", rfl, rfl, by norm_num, by norm_num, rfl, rfl, rfl⟩
        · rw [if_neg hv] at h ⊢
          cases hval : validate req.headers (some st.uid) with
          | error e =>
            rw [hval] at h
            dsimp only at h
            injection h with h
            subst h
            exact ⟨abort 400 e, rfl, rfl, by norm_num, by norm_num, rfl, rfl, rfl⟩
          | ok ids =>
            rw [hval] at h
            dsimp only at h
            cases h

/-- Witness for C9: a POST upgrade attempt is rejected with 405 and the
shard state, socket, and hooks are untouched. -/
theorem shard_connect_rejects_before_state_witness :
    ∃ r, (connect none ⟨"A", [("c", "g")], []⟩
        ⟨"POST", "/ws", some "websocket", none, some "13",
          ⟨some "g", some "c", none, some "A", none, none⟩, ""⟩).result = .ok r ∧
      r.status = 405 ∧ 400 ≤ 405 ∧ 405 ≤ 426 ∧
      (connect none ⟨"A", [("c", "g")], []⟩
        ⟨"POST", "/ws", some "websocket", none, some "13",
          ⟨some "g", some "c", none, some "A", none, none⟩, ""⟩).state =
        ⟨"A", [("c", "g")], []⟩ ∧
      (connect none ⟨"A", [("c", "g")], []⟩
        ⟨"POST", "/ws", some "websocket", none, some "13",
          ⟨some "g", some "c", none, some "A", none, none⟩, ""⟩).socketMade = false ∧
      (connect none ⟨"A", [("c", "g")], []⟩
        ⟨"POST", "/ws", some "websocket", none, some "13",
          ⟨some "g", some "c", none, some "A", none, none⟩, ""⟩).openRan = false :=
  shard_connect_rejects_before_state none ⟨"A", [("c", "g")], []⟩
    ⟨"POST", "/ws", some "websocket", none, some "13",
      ⟨some "g", some "c", none, some "A", none, none⟩, ""⟩ 405 rfl

end Dog
